import Mathlib

/-!
# Verification of the financial-analysis API server

A shallow embedding of `src/agents/advanced/api_server.py` and
`src/agents/advanced/main.py` from the AIwith10Alytics repository.

* Times (`time.time()` readings and durations) are modelled as rationals,
  passed explicitly to the embedded functions in the order the source reads
  the clock.
* The in-memory task store `task_results` (a Python dict from task id to a
  dict of string keys) is modelled as an insertion-ordered association list
  `Registry`; records are a structure whose `Option` fields model keys that a
  given writer may leave absent (`dict.get` on a missing key returns `None`,
  which is `none` here).
* Crew invocations (`crew.kickoff`) call external LLM services; they are
  modelled as oracle functions that either return a payload or raise, i.e.
  return `Except String α` where the `String` is the stringified exception.
* A Python exception propagating out of an endpoint or function is modelled by
  an `Except.error` result; functions that also mutate `task_results` return
  the final registry state paired with the outcome.
-/

set_option autoImplicit false

namespace AdvancedApi

/-- One record of the `task_results` dict
(`src/agents/advanced/api_server.py`).  The writers are the two assignments
`task_results[task_id] = {...}` in `run_analysis_background`: the first writes
keys `status`, `start_time`, `stock`, `execution_mode`; the second (on
completion) writes `status`, `execution_time`, `stock`, `execution_mode` and,
in parallel mode, also `parallel_time`, `analysis_time`, `time_saved`.
No writer ever sets a `results` or an `error` key, so those fields default to
`none` and stay `none`; `get_task_status` nevertheless reads both via
`dict.get`. -/
structure TaskRecord where
  status : String
  start_time : Option ℚ := none
  stock : Option String := none
  execution_mode : Option String := none
  execution_time : Option ℚ := none
  parallel_time : Option ℚ := none
  analysis_time : Option ℚ := none
  time_saved : Option ℚ := none
  results : Option String := none
  error : Option String := none
deriving DecidableEq, Repr

/-- The in-memory store `task_results = {}` of `api_server.py`, an
insertion-ordered dictionary from task id to record. -/
abbrev Registry := List (String × TaskRecord)

namespace Registry

/-- Dictionary read `task_results.get(task_id)`: `none` when the key is
absent (where `task_results[task_id]` would raise `KeyError`). -/
def lookup : Registry → String → Option TaskRecord
  | [], _ => none
  | (k, v) :: rest, key => if k = key then some v else lookup rest key

/-- Dictionary write `task_results[task_id] = rec`: overwrite in place when
the key exists, append otherwise (Python dicts keep insertion order). -/
def set : Registry → String → TaskRecord → Registry
  | [], key, v => [(key, v)]
  | (k, w) :: rest, key, v =>
      if k = key then (k, v) :: rest else (k, w) :: set rest key v

/-- Dictionary deletion `del task_results[task_id]` on a present key. -/
def erase : Registry → String → Registry
  | [], _ => []
  | (k, w) :: rest, key => if k = key then rest else (k, w) :: erase rest key

@[simp] theorem lookup_nil (key : String) : lookup [] key = none := rfl

@[simp] theorem lookup_set_self (r : Registry) (key : String) (v : TaskRecord) :
    (r.set key v).lookup key = some v := by
  induction r with
  | nil => simp [set, lookup]
  | cons hd tl ih =>
      obtain ⟨k, w⟩ := hd
      by_cases h : k = key
      · simp [set, lookup, h]
      · simp [set, lookup, h, ih]

theorem lookup_set_ne (r : Registry) (key key' : String) (v : TaskRecord)
    (h : key ≠ key') : (r.set key v).lookup key' = r.lookup key' := by
  induction r with
  | nil => simp [set, lookup, h]
  | cons hd tl ih =>
      obtain ⟨k, w⟩ := hd
      by_cases hk : k = key
      · subst hk
        simp [set, lookup, h, ih]
      · simp [set, lookup, hk, ih]

end Registry

/-! ## Embedding of `src/agents/advanced/main.py` -/

/-- The four pre-built crews of `main.py` (`financial_crew`, `news_crew`,
`analysis_crew`, `sequential_crew`), abstracted over their `kickoff` calls:
each takes the stock input (`{"stock": stock}` is modelled by the stock
string) and either returns a payload of type `α` or raises. -/
structure CrewEnv (α : Type) where
  financial_kickoff : String → Except String α
  news_kickoff : String → Except String α
  analysis_kickoff : String → Except String α
  sequential_kickoff : String → Except String α

/-- The clock readings taken by `run_parallel_execution`:
`parallel_start`, `parallel_end`, `analysis_start`, `analysis_end`
(`time.time()` at main.py lines 77, 92, 98, 103). -/
structure ParClock where
  parallel_start : ℚ
  parallel_end : ℚ
  analysis_start : ℚ
  analysis_end : ℚ

/-- `run_parallel_execution(stock_input)` (main.py lines 71-107).  Phase 1
submits `run_crew_task(financial_crew, …)` and `run_crew_task(news_crew, …)`
to a `ThreadPoolExecutor(max_workers=2)` and blocks on both futures
(`financial_future.result()`, `news_future.result()`); an exception raised in
either crew re-raises at the corresponding `.result()` call.  Phase 2 then
runs `analysis_crew.kickoff(inputs=stock_input)`.  The function returns only
the pair `(parallel_time, analysis_time)`; the three crew payloads
(`financial_result`, `news_result`, `analysis_result`) are bound but never
returned. -/
def run_parallel_execution {α : Type} (env : CrewEnv α) (clock : ParClock)
    (stock_input : String) : Except String (ℚ × ℚ) := do
  let _financial_result ← env.financial_kickoff stock_input
  let _news_result ← env.news_kickoff stock_input
  let parallel_time := clock.parallel_end - clock.parallel_start
  let _analysis_result ← env.analysis_kickoff stock_input
  let analysis_time := clock.analysis_end - clock.analysis_start
  return (parallel_time, analysis_time)

/-- `run_sequential_execution(stock_input)` (main.py lines 110-123): one
`sequential_crew.kickoff` call, timed; the code returns
`sequential_time, 0` — the literal `0`, with the comment "Return 0 for
analysis_time since it's all combined" — and the crew payload `result` is
bound but never returned. -/
def run_sequential_execution {α : Type} (env : CrewEnv α)
    (sequential_start sequential_end : ℚ) (stock_input : String) :
    Except String (ℚ × ℚ) := do
  let _result ← env.sequential_kickoff stock_input
  return (sequential_end - sequential_start, 0)

/-- Return shape of `run_parallel_execution` as the specification words it:
`run_parallel(subject_input) -> (parallel_phase_seconds, analysis_phase_seconds,
result)`, a triple whose last component is the final analysis payload.
Modelled from the spec, for comparison with the source function above. -/
def run_parallel_execution_spec {α : Type} (env : CrewEnv α) (clock : ParClock)
    (stock_input : String) : Except String (ℚ × ℚ × α) := do
  let _financial_result ← env.financial_kickoff stock_input
  let _news_result ← env.news_kickoff stock_input
  let parallel_time := clock.parallel_end - clock.parallel_start
  let analysis_result ← env.analysis_kickoff stock_input
  let analysis_time := clock.analysis_end - clock.analysis_start
  return (parallel_time, analysis_time, analysis_result)

/-- Return shape of `run_sequential_execution` as the specification words it:
`run_sequential(subject_input) -> (total_seconds, result)` with `result` the
final analysis payload.  Modelled from the spec, for comparison with the
source function above. -/
def run_sequential_execution_spec {α : Type} (env : CrewEnv α)
    (sequential_start sequential_end : ℚ) (stock_input : String) :
    Except String (ℚ × α) := do
  let result ← env.sequential_kickoff stock_input
  return (sequential_end - sequential_start, result)

/-- Max worker count of the Phase 1 thread pool:
`ThreadPoolExecutor(max_workers=2)` at main.py line 79. -/
def parallel_max_workers : Nat := 2

/-- The synchronisation events of `run_parallel_execution`, in the order the
straight-line body of main.py lines 79-101 performs them: both submits
(lines 81-86), then the blocking `financial_future.result()` (line 89), then
`news_future.result()` (line 90) — the `with` block exit additionally joins
the executor — and only then the Phase 2 `analysis_crew.kickoff`
(line 101). -/
inductive ParEvent where
  | submit_financial
  | submit_news
  | join_financial
  | join_news
  | phase2_kickoff
deriving DecidableEq, Repr

/-- The event order of one execution of `run_parallel_execution`, read off
the straight-line body (blocking calls in program order). -/
def run_parallel_events : List ParEvent :=
  [ParEvent.submit_financial, ParEvent.submit_news,
   ParEvent.join_financial, ParEvent.join_news, ParEvent.phase2_kickoff]

/-! ## Embedding of the endpoints of `src/agents/advanced/api_server.py`

The two coordinator calls that `api_server.py` makes —
`run_parallel_execution(stock_input)` and `run_sequential_execution(stock_input)`
— are abstracted as oracle functions `runPar runSeq : String → Except String (ℚ × ℚ)`
from the stock to either the returned pair of durations or a raised
exception; `run_parallel_execution`/`run_sequential_execution` above are the
instances the server actually wires in. -/

/-- Observable failure of an endpoint.  The source endpoints contain no
`raise` and no use of the imported `HTTPException`; the only failure they can
produce is an uncaught Python `KeyError` from `task_results[task_id]` or
`del task_results[task_id]`, which FastAPI surfaces as an HTTP 500 server
error.  The constructors `notFound` (an HTTP 404 client error) and
`duplicateTask` exist only as the observation vocabulary of the
specification's claims; no embedded function produces them. -/
inductive ApiError where
  | keyError (key : String)
  | notFound (task_id : String)
  | duplicateTask (task_id : String)
deriving DecidableEq, Repr

/-- Response model `AnalysisResponse` (api_server.py lines 42-49). -/
structure AnalysisResponse where
  status : String
  message : String
  execution_time : Option ℚ := none
  parallel_time : Option ℚ := none
  analysis_time : Option ℚ := none
  time_saved : Option ℚ := none
  task_id : Option String := none
deriving DecidableEq, Repr

/-- Response model `TaskStatus` (api_server.py lines 52-57). -/
structure TaskStatusModel where
  task_id : String
  status : String
  result : Option String := none
  execution_time : Option ℚ := none
  error : Option String := none
deriving DecidableEq, Repr

/-- A background task scheduled via `background_tasks.add_task(run_analysis_background,
task_id, request.stock, request.execution_mode)` (api_server.py lines 136-138):
the argument tuple, to be executed after the response is sent. -/
structure ScheduledTask where
  task_id : String
  stock : String
  execution_mode : String
deriving DecidableEq, Repr

/-- Task-id generation `task_id = f"{request.stock}_{int(time.time())}"`
(api_server.py line 133); `now` is the whole-second clock reading
`int(time.time())`. -/
def make_task_id (stock : String) (now : ℤ) : String :=
  stock ++ "_" ++ toString now

/-- `run_analysis_background(task_id, stock, execution_mode)`
(api_server.py lines 64-106).  It first writes the running record
(lines 69-74), then dispatches on `execution_mode == "parallel"`:
the chosen coordinator is invoked, a completed record overwrites the entry,
and in parallel mode `time_saved` is computed from
`estimated_sequential_time = parallel_time * 2 + analysis_time` (lines 83-84).
The body has no `try`/`except`: an exception raised by the coordinator
propagates out of the function, which is modelled by the `Except.error`
outcome; the registry component of the result is the state of `task_results`
when the function ends, normally or by exception.  `start_time` and
`end_time` are the two `time.time()` readings (lines 66, 79/98). -/
def run_analysis_background (runPar runSeq : String → Except String (ℚ × ℚ))
    (start_time end_time : ℚ) (reg : Registry)
    (task_id stock execution_mode : String) :
    Registry × Except String Unit :=
  let reg1 := reg.set task_id
    { status := "running", start_time := some start_time,
      stock := some stock, execution_mode := some execution_mode }
  if execution_mode = "parallel" then
    match runPar stock with
    | Except.error e => (reg1, Except.error e)
    | Except.ok (parallel_time, analysis_time) =>
        let execution_time := end_time - start_time
        let estimated_sequential_time := parallel_time * 2 + analysis_time
        let time_saved := estimated_sequential_time - execution_time
        (reg1.set task_id
          { status := "completed", execution_time := some execution_time,
            parallel_time := some parallel_time,
            analysis_time := some analysis_time,
            time_saved := some time_saved, stock := some stock,
            execution_mode := some execution_mode },
         Except.ok ())
  else
    match runSeq stock with
    | Except.error e => (reg1, Except.error e)
    | Except.ok (_sequential_time, _) =>
        let execution_time := end_time - start_time
        (reg1.set task_id
          { status := "completed", execution_time := some execution_time,
            stock := some stock, execution_mode := some execution_mode },
         Except.ok ())

/-- Endpoint `POST /analyze`, `start_analysis(request, background_tasks)`
(api_server.py lines 129-144).  It generates the task id, schedules
`run_analysis_background` as a background task — which FastAPI runs only
after the response has been sent — and returns the "started" response.  It
does not touch `task_results` (`reg` is returned unchanged), performs no
duplicate check, and contains no `raise`, so it always succeeds. -/
def start_analysis (reg : Registry) (pending : List ScheduledTask)
    (stock execution_mode : String) (now : ℤ) :
    Except ApiError (Registry × List ScheduledTask × AnalysisResponse) :=
  let task_id := make_task_id stock now
  Except.ok (reg,
    pending ++ [{ task_id := task_id, stock := stock,
                  execution_mode := execution_mode }],
    { status := "started",
      message := "Analysis started for " ++ stock ++ " in "
        ++ execution_mode ++ " mode",
      task_id := some task_id })

/-- Endpoint `GET /status/{task_id}`, `get_task_status(task_id)`
(api_server.py lines 147-158).  `task_data = task_results[task_id]` raises
`KeyError` on an unknown id (an uncaught exception, HTTP 500); otherwise the
response copies `status` and reads `task_data.get("results")`,
`task_data.get("execution_time")`, `task_data.get("error")`. -/
def get_task_status (reg : Registry) (task_id : String) :
    Except ApiError TaskStatusModel :=
  match reg.lookup task_id with
  | none => Except.error (ApiError.keyError task_id)
  | some task_data =>
      Except.ok { task_id := task_id, status := task_data.status,
                  result := task_data.results,
                  execution_time := task_data.execution_time,
                  error := task_data.error }

/-- One row of the `GET /tasks` listing (api_server.py lines 161-175). -/
structure TaskListRow where
  task_id : String
  status : String
  stock : Option String := none
  execution_mode : Option String := none
  execution_time : Option ℚ := none
deriving DecidableEq, Repr

/-- Endpoint `GET /tasks`, `list_tasks()` (api_server.py lines 161-175):
a read-only comprehension over `task_results.items()`. -/
def list_tasks (reg : Registry) : List TaskListRow :=
  reg.map fun kv =>
    { task_id := kv.1, status := kv.2.status, stock := kv.2.stock,
      execution_mode := kv.2.execution_mode,
      execution_time := kv.2.execution_time }

/-- Endpoint `DELETE /tasks/{task_id}`, `delete_task(task_id)`
(api_server.py lines 178-182): `del task_results[task_id]` raises `KeyError`
on an unknown id (uncaught, HTTP 500); otherwise the entry is removed and a
confirmation message returned. -/
def delete_task (reg : Registry) (task_id : String) :
    Except ApiError (Registry × String) :=
  match reg.lookup task_id with
  | none => Except.error (ApiError.keyError task_id)
  | some _ =>
      Except.ok (reg.erase task_id,
        "Task " ++ task_id ++ " deleted successfully")

/-- Endpoint `POST /analyze/sync`, `analyze_sync(request)`
(api_server.py lines 185-219): the same mode dispatch and `time_saved`
computation as the background runner, run in the request handler and
returning the timings directly; nothing is written to `task_results`, and an
exception from the coordinator propagates (modelled by `Except.error`). -/
def analyze_sync (runPar runSeq : String → Except String (ℚ × ℚ))
    (start_time end_time : ℚ) (stock execution_mode : String) :
    Except String AnalysisResponse :=
  if execution_mode = "parallel" then
    match runPar stock with
    | Except.error e => Except.error e
    | Except.ok (parallel_time, analysis_time) =>
        let execution_time := end_time - start_time
        let estimated_sequential_time := parallel_time * 2 + analysis_time
        let time_saved := estimated_sequential_time - execution_time
        Except.ok
          { status := "completed",
            message := "Analysis completed for " ++ stock,
            execution_time := some execution_time,
            parallel_time := some parallel_time,
            analysis_time := some analysis_time,
            time_saved := some time_saved }
  else
    match runSeq stock with
    | Except.error e => Except.error e
    | Except.ok (_sequential_time, _) =>
        let execution_time := end_time - start_time
        Except.ok
          { status := "completed",
            message := "Analysis completed for " ++ stock,
            execution_time := some execution_time }

/-! ## Helper lemmas -/

/-- `true` when an embedded call returned normally, `false` when it raised. -/
def exceptOk {ε α : Type} : Except ε α → Bool
  | Except.ok _ => true
  | Except.error _ => false

/-- After any `run_analysis_background` call the entry for its `task_id` is
present: its `stock` and `execution_mode` come from that call, its status is
`"completed"` when the call returned normally and `"running"` when the
coordinator raised, and its `results` and `error` fields are `none`. -/
theorem run_analysis_background_final_record
    (runPar runSeq : String → Except String (ℚ × ℚ)) (t0 t1 : ℚ)
    (reg : Registry) (task_id stock mode : String) :
    ∃ rec : TaskRecord,
      (run_analysis_background runPar runSeq t0 t1 reg
          task_id stock mode).1.lookup task_id = some rec
      ∧ rec.stock = some stock
      ∧ rec.execution_mode = some mode
      ∧ rec.status
          = (if exceptOk (run_analysis_background runPar runSeq t0 t1 reg
                task_id stock mode).2 then "completed" else "running")
      ∧ rec.results = none ∧ rec.error = none := by
  by_cases hm : mode = "parallel"
  · subst hm
    rcases hp : runPar stock with e | ⟨p, a⟩
    · exact ⟨{ status := "running", start_time := some t0,
               stock := some stock, execution_mode := some "parallel" },
        by simp [run_analysis_background, hp, Registry.lookup_set_self],
        rfl, rfl, by simp [run_analysis_background, hp, exceptOk], rfl, rfl⟩
    · exact ⟨{ status := "completed",
               execution_time := some (t1 - t0), parallel_time := some p,
               analysis_time := some a,
               time_saved := some (p * 2 + a - (t1 - t0)),
               stock := some stock, execution_mode := some "parallel" },
        by simp [run_analysis_background, hp, Registry.lookup_set_self],
        rfl, rfl, by simp [run_analysis_background, hp, exceptOk], rfl, rfl⟩
  · rcases hs : runSeq stock with e | ⟨s, z⟩
    · exact ⟨{ status := "running", start_time := some t0,
               stock := some stock, execution_mode := some mode },
        by simp [run_analysis_background, hm, hs, Registry.lookup_set_self],
        rfl, rfl, by simp [run_analysis_background, hm, hs, exceptOk], rfl, rfl⟩
    · exact ⟨{ status := "completed", execution_time := some (t1 - t0),
               stock := some stock, execution_mode := some mode },
        by simp [run_analysis_background, hm, hs, Registry.lookup_set_self],
        rfl, rfl, by simp [run_analysis_background, hm, hs, exceptOk], rfl, rfl⟩

/-! ## The claims -/

/-- **C1.** The claim says `run_analysis_background` never propagates an
exception and records status FAILED with a non-empty error message when the
coordinator raises.  The code has no `try`/`except`: evaluated at the failing
input — task "T", stock "AAPL", parallel mode, a coordinator raising
"boom" — the call propagates the exception (`Except.error "boom"`), and the
task's record still answers a status query with status "running" and a `None`
error field. -/
theorem c1_crew_error_propagates_and_record_stays_running :
    (run_analysis_background (fun _ => Except.error "boom")
        (fun _ => Except.ok (0, 0)) 0 1 [] "T" "AAPL" "parallel").2
      = Except.error "boom"
    ∧ get_task_status
        (run_analysis_background (fun _ => Except.error "boom")
          (fun _ => Except.ok (0, 0)) 0 1 [] "T" "AAPL" "parallel").1 "T"
      = Except.ok { task_id := "T", status := "running", result := none,
                    execution_time := none, error := none } :=
  ⟨rfl, rfl⟩

/-- **C4.** The claim says `get_task_status` and `delete_task` on an unknown
task id fail with NotFoundError, a client error rather than a crash.  The
code indexes `task_results` directly, so both raise an uncaught `KeyError`
(HTTP 500), not a 404 client error; after a successful delete of "T" a
further status query for "T" again raises `KeyError`. -/
theorem c4_unknown_task_keyerror_not_client_error :
    get_task_status [] "missing" = Except.error (ApiError.keyError "missing")
    ∧ delete_task [] "missing" = Except.error (ApiError.keyError "missing")
    ∧ delete_task [("T", { status := "completed" })] "T"
        = Except.ok ([], "Task T deleted successfully")
    ∧ get_task_status [] "T" = Except.error (ApiError.keyError "T") :=
  ⟨rfl, rfl, rfl, rfl⟩

/-- **C5.** In parallel mode the completed record's `time_saved` equals
`(2 × parallel_time + analysis_time) − (end_time − start_time)` for every
coordinator outcome `(p, a)` and clock readings, and at `parallel_time = 1`,
`analysis_time = 1/2`, total `= 3/2` it is exactly `1`. -/
theorem c5_time_saved_formula (p a t0 t1 : ℚ)
    (runSeq : String → Except String (ℚ × ℚ)) (reg : Registry)
    (task_id stock : String) :
    ((run_analysis_background (fun _ => Except.ok (p, a)) runSeq t0 t1 reg
        task_id stock "parallel").1.lookup task_id).map TaskRecord.time_saved
      = some (some (2 * p + a - (t1 - t0)))
    ∧ ((run_analysis_background (fun _ => Except.ok (1, 1/2)) runSeq 0 (3/2)
        reg task_id stock "parallel").1.lookup task_id).map
          TaskRecord.time_saved
      = some (some 1) := by
  constructor
  · simp [run_analysis_background, Registry.lookup_set_self]
    ring
  · simp [run_analysis_background, Registry.lookup_set_self]
    norm_num

/-- **C9.** The claim says the result payload is present exactly when the
status is COMPLETED.  Evaluated at a task driven to completion (parallel
mode, coordinator returning `(1, 2)`, start 100, end 102): the status query
answers status "completed" with `result = none` — the runner never stores
the crew payload and `get_task_status` reads a "results" key no writer ever
sets. -/
theorem c9_completed_poll_has_none_result :
    get_task_status
        (run_analysis_background (fun _ => Except.ok (1, 2))
          (fun _ => Except.ok (1, 0)) 100 102 [] "AAPL_100" "AAPL"
          "parallel").1 "AAPL_100"
      = Except.ok { task_id := "AAPL_100", status := "completed",
                    result := none, execution_time := some 2,
                    error := none } := by
  simp [run_analysis_background, get_task_status, Registry.set,
    Registry.lookup]
  norm_num

/-- **C2 (counterexample).** The claim says a second start with an
already-present task id fails with DuplicateTaskError.  With the record
"AAPL_100" already in the registry (left by a completed background run),
`start_analysis` for stock "AAPL" at second 100 — which generates the same
id "AAPL_100" — succeeds with a "started" response: no duplicate check is
performed and no error is raised. -/
theorem c2_duplicate_start_not_rejected :
    ((run_analysis_background (fun _ => Except.ok (1, 2))
        (fun _ => Except.ok (1, 0)) 100 102 [] "AAPL_100" "AAPL"
        "parallel").1.lookup (make_task_id "AAPL" 100)).isSome = true
    ∧ start_analysis
        (run_analysis_background (fun _ => Except.ok (1, 2))
          (fun _ => Except.ok (1, 0)) 100 102 [] "AAPL_100" "AAPL"
          "parallel").1 [] "AAPL" "parallel" 100
      = Except.ok
          ((run_analysis_background (fun _ => Except.ok (1, 2))
            (fun _ => Except.ok (1, 0)) 100 102 [] "AAPL_100" "AAPL"
            "parallel").1,
           [{ task_id := "AAPL_100", stock := "AAPL",
              execution_mode := "parallel" }],
           { status := "started",
             message := "Analysis started for AAPL in parallel mode",
             task_id := some "AAPL_100" }) :=
  ⟨rfl, rfl⟩

/-- **C2 (amended).** A second start whose generated task id already exists
in the registry does not fail: `start_analysis` performs no duplicate check
and never raises DuplicateTaskError; it leaves the registry itself unchanged
(it only schedules the background task), and when the second background run
executes it overwrites the existing record with a fresh one for its own
stock and mode. -/
theorem c2_second_start_succeeds_and_background_overwrites
    (reg : Registry) (pending : List ScheduledTask)
    (stock execution_mode : String) (now : ℤ) (rec : TaskRecord)
    (h : reg.lookup (make_task_id stock now) = some rec)
    (runPar runSeq : String → Except String (ℚ × ℚ)) (t0 t1 : ℚ) :
    start_analysis reg pending stock execution_mode now
      = Except.ok (reg,
          pending ++ [{ task_id := make_task_id stock now, stock := stock,
                        execution_mode := execution_mode }],
          { status := "started",
            message := "Analysis started for " ++ stock ++ " in "
              ++ execution_mode ++ " mode",
            task_id := some (make_task_id stock now) })
    ∧ ∃ rec' : TaskRecord,
        (run_analysis_background runPar runSeq t0 t1 reg
            (make_task_id stock now) stock execution_mode).1.lookup
          (make_task_id stock now) = some rec'
        ∧ rec'.stock = some stock
        ∧ rec'.execution_mode = some execution_mode := by
  refine ⟨rfl, ?_⟩
  obtain ⟨rec', h1, h2, h3, -⟩ := run_analysis_background_final_record
    runPar runSeq t0 t1 reg (make_task_id stock now) stock execution_mode
  exact ⟨rec', h1, h2, h3⟩

/-- Witness for **C2 (amended)** at a concrete duplicate: registry already
holding "AAPL_100", a second start for "AAPL" at second 100, then the second
background run. -/
theorem c2_second_start_succeeds_witness :
    (Registry.lookup [("AAPL_100", { status := "completed" })]
        (make_task_id "AAPL" 100) = some { status := "completed" })
    ∧ (start_analysis [("AAPL_100", { status := "completed" })] [] "AAPL"
          "parallel" 100
        = Except.ok ([("AAPL_100", { status := "completed" })],
            [{ task_id := make_task_id "AAPL" 100, stock := "AAPL",
               execution_mode := "parallel" }],
            { status := "started",
              message := "Analysis started for " ++ "AAPL" ++ " in "
                ++ "parallel" ++ " mode",
              task_id := some (make_task_id "AAPL" 100) })
       ∧ ∃ rec' : TaskRecord,
          (run_analysis_background (fun _ => Except.ok (1, 2))
              (fun _ => Except.ok (1, 0)) 100 102
              [("AAPL_100", { status := "completed" })]
              (make_task_id "AAPL" 100) "AAPL" "parallel").1.lookup
            (make_task_id "AAPL" 100) = some rec'
          ∧ rec'.stock = some "AAPL"
          ∧ rec'.execution_mode = some "parallel") :=
  ⟨rfl, c2_second_start_succeeds_and_background_overwrites
    [("AAPL_100", { status := "completed" })] [] "AAPL" "parallel" 100
    { status := "completed" } rfl
    (fun _ => Except.ok (1, 2)) (fun _ => Except.ok (1, 0)) 100 102⟩

/-- **C3 (counterexample).** The claim says the RUNNING record is written
synchronously before any asynchronous work, so an accepted task's status
query never misses.  An accepted request ("AAPL", parallel, second 100)
returns task id "AAPL_100" with the registry left empty — the write happens
only inside the background task — so a status query issued right after
acceptance raises `KeyError`. -/
theorem c3_status_query_after_accept_misses_record :
    start_analysis [] [] "AAPL" "parallel" 100
      = Except.ok ([],
          [{ task_id := "AAPL_100", stock := "AAPL",
             execution_mode := "parallel" }],
          { status := "started",
            message := "Analysis started for AAPL in parallel mode",
            task_id := some "AAPL_100" })
    ∧ get_task_status [] "AAPL_100"
        = Except.error (ApiError.keyError "AAPL_100") :=
  ⟨rfl, rfl⟩

/-- **C3 (amended).** `start_analysis` leaves the registry unchanged (the
record is not written synchronously); the RUNNING record is instead written
by `run_analysis_background` as its first step, before the coordinator is
invoked: after any background run the entry exists, and when the coordinator
raises the entry is exactly the running record. -/
theorem c3_running_record_written_by_background_not_start
    (reg : Registry) (pending : List ScheduledTask)
    (stock execution_mode : String) (now : ℤ)
    (runPar runSeq : String → Except String (ℚ × ℚ)) (t0 t1 : ℚ)
    (task_id e : String) :
    start_analysis reg pending stock execution_mode now
      = Except.ok (reg,
          pending ++ [{ task_id := make_task_id stock now, stock := stock,
                        execution_mode := execution_mode }],
          { status := "started",
            message := "Analysis started for " ++ stock ++ " in "
              ++ execution_mode ++ " mode",
            task_id := some (make_task_id stock now) })
    ∧ ((run_analysis_background runPar runSeq t0 t1 reg task_id stock
          execution_mode).1.lookup task_id).isSome = true
    ∧ (run_analysis_background (fun _ => Except.error e) runSeq t0 t1 reg
          task_id stock "parallel").1.lookup task_id
        = some { status := "running", start_time := some t0,
                 stock := some stock, execution_mode := some "parallel" } := by
  refine ⟨rfl, ?_, ?_⟩
  · obtain ⟨rec, h1, -⟩ := run_analysis_background_final_record
      runPar runSeq t0 t1 reg task_id stock execution_mode
    simp [h1]
  · simp [run_analysis_background, Registry.lookup_set_self]

/-- A concrete crew environment over rational payloads, for evaluating the
coordinators: the analysis crew yields 5 and the sequential crew yields 7. -/
def crewEnvA : CrewEnv ℚ :=
  { financial_kickoff := fun _ => Except.ok 0,
    news_kickoff := fun _ => Except.ok 0,
    analysis_kickoff := fun _ => Except.ok 5,
    sequential_kickoff := fun _ => Except.ok 7 }

/-- Like `crewEnvA` but with different final payloads (analysis 9,
sequential 8), to observe whether the coordinators' return values depend on
the crew payloads at all. -/
def crewEnvB : CrewEnv ℚ :=
  { financial_kickoff := fun _ => Except.ok 0,
    news_kickoff := fun _ => Except.ok 0,
    analysis_kickoff := fun _ => Except.ok 9,
    sequential_kickoff := fun _ => Except.ok 8 }

/-- **C6 (counterexample).** The claim says `run_parallel` returns a triple
ending in the analysis payload and `run_sequential` returns `(total, result)`.
With the sequential crew yielding payload 7, `run_sequential_execution`
returns `(5, 0)` — the literal `0`, not the payload — while the contract as
worded (`run_sequential_execution_spec`) would return `(5, 7)`; and
`run_parallel_execution` returns the same pair of durations for two
environments whose analysis payloads differ (5 vs 9), while the worded
contract distinguishes them, so its return value cannot contain the
payload. -/
theorem c6_payload_not_returned :
    run_sequential_execution crewEnvA 0 5 "AAPL" = Except.ok (5, 0)
    ∧ run_sequential_execution_spec crewEnvA 0 5 "AAPL" = Except.ok (5, 7)
    ∧ run_parallel_execution crewEnvA ⟨0, 1, 1, 2⟩ "AAPL"
        = run_parallel_execution crewEnvB ⟨0, 1, 1, 2⟩ "AAPL"
    ∧ run_parallel_execution_spec crewEnvA ⟨0, 1, 1, 2⟩ "AAPL"
        = Except.ok (1, 1, 5)
    ∧ run_parallel_execution_spec crewEnvB ⟨0, 1, 1, 2⟩ "AAPL"
        = Except.ok (1, 1, 9) := by
  refine ⟨?_, ?_, ?_, ?_, ?_⟩ <;>
    simp [run_sequential_execution, run_sequential_execution_spec,
      run_parallel_execution, run_parallel_execution_spec,
      crewEnvA, crewEnvB, Bind.bind, Except.bind, Pure.pure,
      Except.pure] <;>
    norm_num

/-- **C6 (amended).** When every crew call succeeds, `run_parallel_execution`
returns exactly the pair of measured phase durations and
`run_sequential_execution` returns the measured total paired with the
literal `0`; neither returns the crew payload. -/
theorem c6_coordinators_return_durations_only {α : Type} (env : CrewEnv α)
    (clock : ParClock) (ss se : ℚ) (x : String) (rf rn ra rs : α)
    (hf : env.financial_kickoff x = Except.ok rf)
    (hn : env.news_kickoff x = Except.ok rn)
    (ha : env.analysis_kickoff x = Except.ok ra)
    (hs : env.sequential_kickoff x = Except.ok rs) :
    run_parallel_execution env clock x
      = Except.ok (clock.parallel_end - clock.parallel_start,
                   clock.analysis_end - clock.analysis_start)
    ∧ run_sequential_execution env ss se x = Except.ok (se - ss, 0) := by
  constructor <;>
    simp [run_parallel_execution, run_sequential_execution, hf, hn, ha, hs,
      Bind.bind, Except.bind, Pure.pure, Except.pure]

/-- Witness for **C6 (amended)** on `crewEnvA` with all kickoffs
succeeding. -/
theorem c6_coordinators_return_durations_only_witness :
    (crewEnvA.financial_kickoff "AAPL" = Except.ok 0)
    ∧ (crewEnvA.news_kickoff "AAPL" = Except.ok 0)
    ∧ (crewEnvA.analysis_kickoff "AAPL" = Except.ok 5)
    ∧ (crewEnvA.sequential_kickoff "AAPL" = Except.ok 7)
    ∧ (run_parallel_execution crewEnvA ⟨0, 1, 1, 2⟩ "AAPL"
        = Except.ok ((1 : ℚ) - 0, (2 : ℚ) - 1)
       ∧ run_sequential_execution crewEnvA 0 5 "AAPL"
        = Except.ok ((5 : ℚ) - 0, 0)) :=
  ⟨rfl, rfl, rfl, rfl,
    @c6_coordinators_return_durations_only ℚ crewEnvA ⟨0, 1, 1, 2⟩ 0 5
      "AAPL" 0 0 5 7 rfl rfl rfl rfl⟩

/-- **C7.** Phase 1 of `run_parallel_execution` uses a thread pool of
exactly 2 workers for its two submitted crew invocations, and in the event
order of the straight-line body the single Phase 2 kickoff comes strictly
after both Phase 1 futures are joined. -/
theorem c7_two_workers_join_before_phase2 :
    parallel_max_workers = 2
    ∧ run_parallel_events.count ParEvent.submit_financial = 1
    ∧ run_parallel_events.count ParEvent.submit_news = 1
    ∧ run_parallel_events.count ParEvent.phase2_kickoff = 1
    ∧ run_parallel_events.indexOf ParEvent.join_financial
        < run_parallel_events.indexOf ParEvent.phase2_kickoff
    ∧ run_parallel_events.indexOf ParEvent.join_news
        < run_parallel_events.indexOf ParEvent.phase2_kickoff := by
  decide

/-- **C8 (counterexample).** The claim says no sequence of registry
operations moves a record from COMPLETED back to RUNNING.  Task ids are
`stock` plus the whole-second timestamp, so a repeat run for the same stock
in the same second reuses the id: after a first background run completes
"AAPL_100", a second background run with that id (whose coordinator then
raises) first rewrites the record — leaving "AAPL_100" back at status
"running". -/
theorem c8_completed_record_reset_to_running :
    ((run_analysis_background (fun _ => Except.ok (1, 2))
        (fun _ => Except.ok (1, 0)) 100 102 [] "AAPL_100" "AAPL"
        "parallel").1.lookup "AAPL_100").map TaskRecord.status
      = some "completed"
    ∧ ((run_analysis_background (fun _ => Except.error "RateLimitError")
          (fun _ => Except.ok (1, 0)) 160 161
          (run_analysis_background (fun _ => Except.ok (1, 2))
            (fun _ => Except.ok (1, 0)) 100 102 [] "AAPL_100" "AAPL"
            "parallel").1
          "AAPL_100" "AAPL" "parallel").1.lookup "AAPL_100").map
        TaskRecord.status
      = some "running" := by
  constructor <;> simp [run_analysis_background, Registry.set,
    Registry.lookup]

/-- **C8 (amended).** Within a single background run the record for the
task id evolves monotonically: it is written as "running" first and ends at
"completed" exactly when the run returned normally — no other status
(PENDING, FAILED) ever occurs.  Monotonicity does not extend across runs:
a repeated run with a colliding task id resets the record (see the
counterexample). -/
theorem c8_statuses_monotone_within_single_run
    (runPar runSeq : String → Except String (ℚ × ℚ)) (t0 t1 : ℚ)
    (reg : Registry) (task_id stock mode : String) :
    ∃ rec : TaskRecord,
      (run_analysis_background runPar runSeq t0 t1 reg task_id stock
          mode).1.lookup task_id = some rec
      ∧ rec.status
          = (if exceptOk (run_analysis_background runPar runSeq t0 t1 reg
                task_id stock mode).2 then "completed" else "running") := by
  obtain ⟨rec, h1, -, -, h4, -⟩ := run_analysis_background_final_record
    runPar runSeq t0 t1 reg task_id stock mode
  exact ⟨rec, h1, h4⟩

/-- **C10.** For any execution mode string other than exactly "parallel",
both the background runner and the synchronous endpoint never consult the
parallel coordinator (their outcome is the same for any two parallel
coordinators) and run the sequential coordinator (producing the sequential
completed record and response); and `start_analysis` accepts the request
whatever the mode string is — the mode is never validated. -/
theorem c10_mode_string_not_validated
    (execution_mode : String) (h : execution_mode ≠ "parallel")
    (runPar runPar' runSeq : String → Except String (ℚ × ℚ))
    (sq z t0 t1 : ℚ) (reg : Registry) (pending : List ScheduledTask)
    (task_id stock : String) (now : ℤ) :
    run_analysis_background runPar runSeq t0 t1 reg task_id stock
        execution_mode
      = run_analysis_background runPar' runSeq t0 t1 reg task_id stock
          execution_mode
    ∧ analyze_sync runPar runSeq t0 t1 stock execution_mode
        = analyze_sync runPar' runSeq t0 t1 stock execution_mode
    ∧ (run_analysis_background runPar (fun _ => Except.ok (sq, z)) t0 t1 reg
          task_id stock execution_mode).1.lookup task_id
        = some { status := "completed", execution_time := some (t1 - t0),
                 stock := some stock,
                 execution_mode := some execution_mode }
    ∧ analyze_sync runPar (fun _ => Except.ok (sq, z)) t0 t1 stock
          execution_mode
        = Except.ok { status := "completed",
                      message := "Analysis completed for " ++ stock,
                      execution_time := some (t1 - t0) }
    ∧ start_analysis reg pending stock execution_mode now
        = Except.ok (reg,
            pending ++ [{ task_id := make_task_id stock now, stock := stock,
                          execution_mode := execution_mode }],
            { status := "started",
              message := "Analysis started for " ++ stock ++ " in "
                ++ execution_mode ++ " mode",
              task_id := some (make_task_id stock now) }) := by
  refine ⟨?_, ?_, ?_, ?_, rfl⟩
  · simp [run_analysis_background, h]
  · simp [analyze_sync, h]
  · simp [run_analysis_background, h, Registry.lookup_set_self]
  · simp [analyze_sync, h]

/-- Witness for **C10** at mode "PARALLEL" (not exactly "parallel"), with a
raising parallel coordinator on one side and a succeeding one on the
other. -/
theorem c10_mode_string_not_validated_witness :
    ("PARALLEL" ≠ "parallel")
    ∧ (run_analysis_background (fun _ => Except.error "x")
          (fun _ => Except.ok (1, 0)) 0 1 [] "T" "AAPL" "PARALLEL"
        = run_analysis_background (fun _ => Except.ok (9, 9))
            (fun _ => Except.ok (1, 0)) 0 1 [] "T" "AAPL" "PARALLEL"
       ∧ analyze_sync (fun _ => Except.error "x") (fun _ => Except.ok (1, 0))
            0 1 "AAPL" "PARALLEL"
        = analyze_sync (fun _ => Except.ok (9, 9))
            (fun _ => Except.ok (1, 0)) 0 1 "AAPL" "PARALLEL"
       ∧ (run_analysis_background (fun _ => Except.error "x")
            (fun _ => Except.ok (2, 0)) 0 1 [] "T" "AAPL"
            "PARALLEL").1.lookup "T"
        = some { status := "completed",
                 execution_time := some ((1 : ℚ) - 0),
                 stock := some "AAPL", execution_mode := some "PARALLEL" }
       ∧ analyze_sync (fun _ => Except.error "x")
            (fun _ => Except.ok (2, 0)) 0 1 "AAPL" "PARALLEL"
        = Except.ok { status := "completed",
                      message := "Analysis completed for AAPL",
                      execution_time := some ((1 : ℚ) - 0) }
       ∧ start_analysis [] [] "AAPL" "PARALLEL" 100
        = Except.ok ([],
            [{ task_id := "AAPL_100", stock := "AAPL",
               execution_mode := "PARALLEL" }],
            { status := "started",
              message := "Analysis started for AAPL in PARALLEL mode",
              task_id := some "AAPL_100" })) :=
  ⟨by decide,
    c10_mode_string_not_validated "PARALLEL" (by decide)
      (fun _ => Except.error "x") (fun _ => Except.ok (9, 9))
      (fun _ => Except.ok (1, 0)) 2 0 0 1 [] [] "T" "AAPL" 100⟩

end AdvancedApi
